import Mathlib

/-!
Verification of the api-winners-chapel backend core: token service,
authorization gate, credential store, content store, and image lifecycle.

Each definition is a shallow embedding of the corresponding JavaScript
function (file and function names noted in the doc comments).  Machine
time is modelled as `Nat` seconds; database tables as lists of row
structures whose fields mirror the SQL columns; the filesystem as the
set of paths currently present plus a fault model for `unlinkSync`.
-/

/-! ## String helpers

`String.startsWith`, `String.toLowerCase` and `String.split` from JS are
modelled on the underlying character lists so that every definition is
kernel-evaluable.  Semantics match the JS functions on the inputs the
routes use.
-/

/-- Model of JS `s.startsWith(pre)`. -/
def strStartsWith (s pre : String) : Bool :=
  pre.data.isPrefixOf s.data

/-- Model of JS `s.toLowerCase()` (ASCII case folding). -/
def lowerStr (s : String) : String :=
  String.mk (s.data.map Char.toLower)

/-- Model of JS `s.split(c)` on a single-character separator. -/
def splitOnChar (c : Char) : List Char → List (List Char)
  | [] => [[]]
  | x :: xs =>
    let r := splitOnChar c xs
    if x = c then [] :: r
    else
      match r with
      | [] => [[x]]
      | y :: ys => (x :: y) :: ys

/-- Model of `authHeader.split(' ')[1]` (auth.js line 37): the part of the
header after the first space, or the empty string when there is none. -/
def bearerToken (s : String) : String :=
  String.mk (((splitOnChar ' ' s.data).drop 1).headD [])

/-- Lexicographic order on character lists by code point, modelling the
relational store's ordering on string-typed columns (ISO dates). -/
def charListLe : List Char → List Char → Bool
  | [], _ => true
  | _ :: _, [] => false
  | a :: as, b :: bs =>
    if a.toNat < b.toNat then true
    else if b.toNat < a.toNat then false
    else charListLe as bs

/-- String order used for `ORDER BY date ASC`. -/
def strLe (a b : String) : Bool := charListLe a.data b.data

/-- JS truthiness of an optional string: `undefined`/`null` and `""` are
falsy, every other string truthy. -/
def truthy : Option String → Bool
  | none => false
  | some s => !(s == "")

/-! ## Token service (src/middleware/auth.js) -/

/-- The claims object signed into a JWT by `generateToken`
(auth.js lines 8-18): `{ id, email, role }`. -/
structure TokenPayload where
  id : String
  email : String
  role : String
deriving DecidableEq, Repr

/-- Model of a JWT as seen by `jsonwebtoken`: either a string that does
not parse/verify structurally, or a payload signed with a secret at an
issuance time (`iat`), carrying the `expiresIn: '24h'` window. -/
inductive Jwt where
  | malformed (raw : String)
  | signed (payload : TokenPayload) (secret : String) (iat : Nat)
deriving DecidableEq, Repr

/-- The `expiresIn: '24h'` window of auth.js line 16, in seconds. -/
def tokenValiditySeconds : Nat := 24 * 60 * 60

/-- Row of the `users` table (migration 001): snake_case columns.  The
bcrypt hash is modelled structurally, see `hashPassword`. -/
structure BcryptHash where
  pw : String
  salt : Nat
deriving DecidableEq, Repr

structure UserRow where
  id : String
  email : String
  password_hash : BcryptHash
  name : Option String
  role : String
  must_change_password : Bool
  is_active : Bool
  last_login : Option Nat
  created_at : Nat
  updated_at : Nat
deriving DecidableEq, Repr

/-- `generateToken(user)` (auth.js lines 8-18): signs `{id, email, role}`
with the process secret and a 24h expiry from the current time. -/
def generateToken (user : UserRow) (secret : String) (now : Nat) : Jwt :=
  Jwt.signed { id := user.id, email := user.email, role := user.role } secret now

/-- `verifyToken(token)` (auth.js lines 21-27): `jwt.verify` inside
try/catch, so the result is `none` (never an exception) for a malformed
token, a wrong signature, or a token past its window. -/
def verifyToken (t : Jwt) (secret : String) (now : Nat) : Option TokenPayload :=
  match t with
  | Jwt.malformed _ => none
  | Jwt.signed payload s iat =>
    if s = secret ∧ now < iat + tokenValiditySeconds then some payload else none

/-! ## Authorization gate (src/middleware/auth.js lines 30-46) -/

/-- Result of running `authMiddleware` on a request. -/
inductive GateResult where
  | reject (status : Nat) (error : String)
  | allow (payload : TokenPayload)
deriving DecidableEq, Repr

/-- auth.js line 34. -/
def authRequiredMsg : String := "Please log in to continue"

/-- auth.js line 41. -/
def sessionExpiredMsg : String := "Your session has expired. Please log in again."

/-- `authMiddleware` (auth.js lines 30-46).  `decode` maps the raw token
string found in the header to the `Jwt` it denotes. -/
def authMiddleware (decode : String → Jwt) (secret : String) (now : Nat)
    (authHeader : Option String) : GateResult :=
  match authHeader with
  | none => GateResult.reject 401 authRequiredMsg
  | some h =>
    if !strStartsWith h "Bearer " then GateResult.reject 401 authRequiredMsg
    else
      match verifyToken (decode (bearerToken h)) secret now with
      | none => GateResult.reject 401 sessionExpiredMsg
      | some payload => GateResult.allow payload

/-- Outcome of a protected route: either the gate's rejection or whatever
the handler produced from the authenticated payload. -/
inductive RouteOutcome (α : Type) where
  | reject (status : Nat) (error : String)
  | handled (result : α)
deriving DecidableEq, Repr

/-- Composition `router.use(authMiddleware)` / `router.post(path,
authMiddleware, handler)`: the handler runs only when the gate allows. -/
def runProtected {α : Type} (decode : String → Jwt) (secret : String) (now : Nat)
    (authHeader : Option String) (handler : TokenPayload → α) : RouteOutcome α :=
  match authMiddleware decode secret now authHeader with
  | GateResult.reject s e => RouteOutcome.reject s e
  | GateResult.allow p => RouteOutcome.handled (handler p)

/-! ## Credential store (src/lib/db.js users section) -/

/-- Projection returned by `getUserById`/`getUsers` (db.js: explicit
column list excluding `password_hash`), after `toCamelCase`. -/
structure UserView where
  id : String
  email : String
  name : Option String
  role : String
  mustChangePassword : Bool
  isActive : Bool
  lastLogin : Option Nat
  createdAt : Nat
  updatedAt : Nat
deriving DecidableEq, Repr

/-- The `toCamelCase` projection of a user row onto the admin-lookup
column list (db.js `getUserById`). -/
def toUserView (r : UserRow) : UserView :=
  { id := r.id, email := r.email, name := r.name, role := r.role,
    mustChangePassword := r.must_change_password, isActive := r.is_active,
    lastLogin := r.last_login, createdAt := r.created_at, updatedAt := r.updated_at }

/-- `getUserById(id)` (db.js): `SELECT <cols> FROM users WHERE id = ?`;
returns the projected record regardless of `is_active`. -/
def getUserById (store : List UserRow) (id : String) : Option UserView :=
  (store.find? (fun r => r.id == id)).map toUserView

/-- `getUserByEmail(email)` (db.js): `SELECT * FROM users WHERE email = ?
AND is_active = TRUE` with the argument lowercased; returns the full row
(including the password hash). -/
def getUserByEmail (store : List UserRow) (email : String) : Option UserRow :=
  store.find? (fun r => r.email == lowerStr email && r.is_active)

/-- Partial-update bag accepted by `updateUser` (db.js): each field
absent (`undefined`/`null` in JS) is `none`. -/
structure UserPatch where
  email : Option String := none
  name : Option String := none
  role : Option String := none
  isActive : Option Bool := none
deriving DecidableEq, Repr

/-- The `COALESCE` row update of db.js `updateUser` applied to one row:
absent patch fields keep the prior value; `email` is lowercased via
`email?.toLowerCase()`; `updated_at = NOW()`. -/
def applyUserPatch (p : UserPatch) (now : Nat) (r : UserRow) : UserRow :=
  { r with
    email := (p.email.map lowerStr).getD r.email,
    name := match p.name with | none => r.name | some n => some n,
    role := p.role.getD r.role,
    is_active := p.isActive.getD r.is_active,
    updated_at := now }

/-- `updateUser(id, updates)` (db.js): returns `null` when the id is
absent, otherwise runs the `COALESCE` update and re-reads via
`getUserById`.  Returns the response and the new table state. -/
def updateUser (store : List UserRow) (id : String) (p : UserPatch) (now : Nat) :
    Option UserView × List UserRow :=
  match store.find? (fun r => r.id == id) with
  | none => (none, store)
  | some _ =>
    let store2 := store.map (fun r => if r.id == id then applyUserPatch p now r else r)
    (getUserById store2 id, store2)

/-- `updateUserPassword(id, passwordHash)` (db.js lines 273-281):
`UPDATE users SET password_hash = ?, must_change_password = FALSE,
updated_at = NOW() WHERE id = ?`, then `getUserById`. -/
def updateUserPassword (store : List UserRow) (id : String) (hash : BcryptHash)
    (now : Nat) : Option UserView × List UserRow :=
  let store2 := store.map (fun r =>
    if r.id == id then
      { r with password_hash := hash, must_change_password := false, updated_at := now }
    else r)
  (getUserById store2 id, store2)

/-- `updateLastLogin(id)` (db.js): `UPDATE users SET last_login = NOW()
WHERE id = ?`. -/
def updateLastLogin (store : List UserRow) (id : String) (now : Nat) : List UserRow :=
  store.map (fun r => if r.id == id then { r with last_login := some now } else r)

/-- `deleteUser(id)` (db.js lines 290-297): soft delete — looks the row
up first (`false` when absent), then `UPDATE users SET is_active =
FALSE, updated_at = NOW() WHERE id = ?`. -/
def deleteUser (store : List UserRow) (id : String) (now : Nat) :
    Bool × List UserRow :=
  match store.find? (fun r => r.id == id) with
  | none => (false, store)
  | some _ =>
    (true, store.map (fun r => if r.id == id then
      { r with is_active := false, updated_at := now } else r))

/-- `createUser(user)` (db.js lines 241-251): INSERT with the email
lowercased, `role || 'admin'`, `mustChangePassword !== false`, and the
schema defaults `is_active = TRUE`, `last_login = NULL`.  A duplicate
primary key makes the INSERT throw, modelled as `none`. -/
def createUser (store : List UserRow) (id : String) (email : String)
    (passwordHash : BcryptHash) (name : Option String) (role : Option String)
    (mustChangePassword : Bool) (now : Nat) :
    Option (Option UserView × List UserRow) :=
  if store.any (fun r => r.id == id) then none
  else
    let row : UserRow :=
      { id := id, email := lowerStr email, password_hash := passwordHash,
        name := name,
        role := match role with | none => "admin" | some s => if s == "" then "admin" else s,
        must_change_password := mustChangePassword,
        is_active := true, last_login := none, created_at := now, updated_at := now }
    let store2 := store ++ [row]
    some (getUserById store2 id, store2)

/-! ## Password hasher (src/middleware/auth.js lines 49-57) -/

/-- `hashPassword(password)`: bcrypt with a fresh salt, modelled
structurally (two hashes coincide only for the same password and salt). -/
def hashPassword (password : String) (salt : Nat) : BcryptHash :=
  { pw := password, salt := salt }

/-- `comparePassword(password, hash)`: bcrypt's verify — true exactly
when the password matches the one the hash was derived from. -/
def comparePassword (password : String) (hash : BcryptHash) : Bool :=
  password == hash.pw

/-- `verifyCredentials(email, password)` (auth.js lines 60-77): active
user looked up by email, password compared against the stored hash,
`last_login` touched on success.  Returns the full user row and the
table state after the touch. -/
def verifyCredentials (store : List UserRow) (email password : String)
    (now : Nat) : Option UserRow × List UserRow :=
  match getUserByEmail store email with
  | none => (none, store)
  | some user =>
    if comparePassword password user.password_hash then
      (some user, updateLastLogin store user.id now)
    else
      (none, store)

/-! ## Login route (src/routes/auth.js POST /login) -/

/-- Public projection of the logged-in user returned by the login route. -/
structure LoginUser where
  id : String
  email : String
  name : Option String
  role : String
  mustChangePassword : Bool
deriving DecidableEq, Repr

/-- Response of `POST /api/auth/login`. -/
inductive LoginResult where
  | invalidInput (status : Nat) (error : String)
  | unauthorized (status : Nat) (error : String)
  | ok (user : LoginUser) (token : Jwt)
deriving DecidableEq, Repr

/-- routes/auth.js line 25. -/
def invalidCredentialsMsg : String := "The email or password you entered is incorrect"

/-- `POST /api/auth/login` (routes/auth.js lines 9-48): zod validation
(`email` min length 1, `password` min length 6), then
`verifyCredentials`, then `generateToken`. -/
def loginRoute (store : List UserRow) (email password : String)
    (secret : String) (now : Nat) : LoginResult × List UserRow :=
  if email.length < 1 ∨ password.length < 6 then
    (LoginResult.invalidInput 400 "Invalid input", store)
  else
    match verifyCredentials store email password now with
    | (none, store2) => (LoginResult.unauthorized 401 invalidCredentialsMsg, store2)
    | (some user, store2) =>
      (LoginResult.ok
        { id := user.id, email := user.email, name := user.name,
          role := user.role, mustChangePassword := user.must_change_password }
        (generateToken user secret now), store2)

/-! ## Content store: posters (src/lib/db.js posters section) -/

/-- Row of the `posters` table: snake_case columns.  `description` is
nullable; `display_order` and `is_active` have schema defaults. -/
structure PosterRow where
  id : String
  title : String
  category : String
  image_url : String
  description : Option String
  is_active : Bool
  display_order : Int
  created_at : Nat
  updated_at : Nat
deriving DecidableEq, Repr

/-- `getPosterById(id)` (db.js): `SELECT * FROM posters WHERE id = ?`,
unfiltered by `is_active`. -/
def getPosterById (db : List PosterRow) (id : String) : Option PosterRow :=
  db.find? (fun r => r.id == id)

/-- Partial-update bag accepted by `updatePoster`: absent JS fields are
`none`. -/
structure PosterPatch where
  title : Option String := none
  category : Option String := none
  imageUrl : Option String := none
  description : Option String := none
  isActive : Option Bool := none
  displayOrder : Option Int := none
deriving DecidableEq, Repr

/-- The `COALESCE` update of db.js `updatePoster` on one row. -/
def applyPosterPatch (p : PosterPatch) (now : Nat) (r : PosterRow) : PosterRow :=
  { r with
    title := p.title.getD r.title,
    category := p.category.getD r.category,
    image_url := p.imageUrl.getD r.image_url,
    description := match p.description with | none => r.description | some d => some d,
    is_active := p.isActive.getD r.is_active,
    display_order := p.displayOrder.getD r.display_order,
    updated_at := now }

/-- `updatePoster(id, updates)` (db.js lines 62-82): `null` when the id
is absent, else the `COALESCE` update followed by `getPosterById`. -/
def updatePoster (db : List PosterRow) (id : String) (p : PosterPatch) (now : Nat) :
    Option PosterRow × List PosterRow :=
  match getPosterById db id with
  | none => (none, db)
  | some _ =>
    let db2 := db.map (fun r => if r.id == id then applyPosterPatch p now r else r)
    (getPosterById db2 id, db2)

/-- `deletePoster(id)` (db.js lines 84-90): `false` when absent, else
`DELETE FROM posters WHERE id = ?`. -/
def deletePoster (db : List PosterRow) (id : String) : Bool × List PosterRow :=
  match getPosterById db id with
  | none => (false, db)
  | some _ => (true, db.filter (fun r => !(r.id == id)))

/-- `createPoster(poster)` (db.js lines 50-60): INSERT with
`description || null` and the schema defaults (`is_active = TRUE`,
`display_order` default 0); a duplicate id makes the INSERT throw,
modelled as `none`. -/
def createPoster (db : List PosterRow) (id title category imageUrl : String)
    (description : Option String) (now : Nat) :
    Option (Option PosterRow × List PosterRow) :=
  if db.any (fun r => r.id == id) then none
  else
    let row : PosterRow :=
      { id := id, title := title, category := category, image_url := imageUrl,
        description := match description with
          | none => none
          | some d => if d == "" then none else some d,
        is_active := true, display_order := 0, created_at := now, updated_at := now }
    let db2 := db ++ [row]
    some (getPosterById db2 id, db2)

/-- `getPosters()` (db.js): `WHERE is_active = TRUE ORDER BY
display_order ASC, created_at DESC`. -/
def getPosters (db : List PosterRow) : List PosterRow :=
  List.insertionSort
    (fun a b => a.display_order < b.display_order ∨
      (a.display_order = b.display_order ∧ b.created_at ≤ a.created_at))
    (db.filter (fun r => r.is_active))

/-! ## Content store: events (src/lib/db.js events section) -/

/-- Row of the `events` table (migration 003): all content columns are
`NOT NULL`; `date` is the ISO date string. -/
structure EventRow where
  id : String
  title : String
  date : String
  time : String
  description : String
  image_url : String
  is_active : Bool
  created_at : Nat
  updated_at : Nat
deriving DecidableEq, Repr

/-- `getEventById(id)` (db.js lines 158-161): unfiltered by `is_active`. -/
def getEventById (db : List EventRow) (id : String) : Option EventRow :=
  db.find? (fun r => r.id == id)

/-- Partial-update bag accepted by `updateEvent`. -/
structure EventPatch where
  title : Option String := none
  date : Option String := none
  time : Option String := none
  description : Option String := none
  imageUrl : Option String := none
  isActive : Option Bool := none
deriving DecidableEq, Repr

/-- The `COALESCE` update of db.js `updateEvent` on one row. -/
def applyEventPatch (p : EventPatch) (now : Nat) (r : EventRow) : EventRow :=
  { r with
    title := p.title.getD r.title,
    date := p.date.getD r.date,
    time := p.time.getD r.time,
    description := p.description.getD r.description,
    image_url := p.imageUrl.getD r.image_url,
    is_active := p.isActive.getD r.is_active,
    updated_at := now }

/-- `updateEvent(id, updates)` (db.js lines 186-206). -/
def updateEvent (db : List EventRow) (id : String) (p : EventPatch) (now : Nat) :
    Option EventRow × List EventRow :=
  match getEventById db id with
  | none => (none, db)
  | some _ =>
    let db2 := db.map (fun r => if r.id == id then applyEventPatch p now r else r)
    (getEventById db2 id, db2)

/-- `deleteEvent(id)` (db.js lines 208-214). -/
def deleteEvent (db : List EventRow) (id : String) : Bool × List EventRow :=
  match getEventById db id with
  | none => (false, db)
  | some _ => (true, db.filter (fun r => !(r.id == id)))

/-- `createEvent(event)` (db.js lines 174-184): INSERT of the six
content columns with `is_active` defaulting to `TRUE`; duplicate id
modelled as `none`. -/
def createEvent (db : List EventRow) (id title date time description imageUrl : String)
    (now : Nat) : Option (Option EventRow × List EventRow) :=
  if db.any (fun r => r.id == id) then none
  else
    let row : EventRow :=
      { id := id, title := title, date := date, time := time,
        description := description, image_url := imageUrl,
        is_active := true, created_at := now, updated_at := now }
    let db2 := db ++ [row]
    some (getEventById db2 id, db2)

/-- `getEvents()` (db.js lines 151-156): `WHERE is_active = TRUE ORDER BY
date ASC` — the public active listing. -/
def getEvents (db : List EventRow) : List EventRow :=
  List.insertionSort (fun a b => strLe a.date b.date = true)
    (db.filter (fun r => r.is_active))

/-! ## Content store: announcements (src/lib/db.js announcements section) -/

/-- Row of the `announcements` table (migration 002). -/
structure AnnouncementRow where
  id : String
  title : String
  date : String
  description : String
  icon : String
  badge : String
  badge_variant : String
  is_active : Bool
  created_at : Nat
  updated_at : Nat
deriving DecidableEq, Repr

/-- `getAnnouncementById(id)` (db.js lines 101-104). -/
def getAnnouncementById (db : List AnnouncementRow) (id : String) : Option AnnouncementRow :=
  db.find? (fun r => r.id == id)

/-- `deleteAnnouncement(id)` (db.js lines 141-147). -/
def deleteAnnouncement (db : List AnnouncementRow) (id : String) :
    Bool × List AnnouncementRow :=
  match getAnnouncementById db id with
  | none => (false, db)
  | some _ => (true, db.filter (fun r => !(r.id == id)))

/-- `createAnnouncement(announcement)` (db.js lines 106-116). -/
def createAnnouncement (db : List AnnouncementRow)
    (id title date description icon badge badgeVariant : String) (now : Nat) :
    Option (Option AnnouncementRow × List AnnouncementRow) :=
  if db.any (fun r => r.id == id) then none
  else
    let row : AnnouncementRow :=
      { id := id, title := title, date := date, description := description,
        icon := icon, badge := badge, badge_variant := badgeVariant,
        is_active := true, created_at := now, updated_at := now }
    let db2 := db ++ [row]
    some (getAnnouncementById db2 id, db2)

/-- `getAnnouncements()` (db.js lines 94-99): `WHERE is_active = TRUE
ORDER BY date DESC`. -/
def getAnnouncements (db : List AnnouncementRow) : List AnnouncementRow :=
  List.insertionSort (fun a b => strLe b.date a.date = true)
    (db.filter (fun r => r.is_active))

/-! ## Image lifecycle (src/routes/posters.js / events.js `deleteImageFile`) -/

/-- The server filesystem: the set of upload paths present (identified by
their public-relative URL), plus a fault model telling which paths make
`fs.unlinkSync` throw. -/
structure FileSystem where
  files : List String
  unlinkFails : String → Bool

/-- `deleteImageFile(imageUrl)` (posters.js lines 12-27): returns without
touching disk when the url is falsy or not under `/uploads/`; otherwise
unlinks the file if it exists, with any exception caught and swallowed
(the filesystem is then left as it was). -/
def deleteImageFile (fs : FileSystem) (imageUrl : String) : FileSystem :=
  if imageUrl == "" || !strStartsWith imageUrl "/uploads/" then fs
  else if fs.files.contains imageUrl then
    if fs.unlinkFails imageUrl then fs
    else { fs with files := fs.files.filter (fun p => !(p == imageUrl)) }
  else fs

/-! ## Poster update route (src/routes/posters.js PUT /:id, lines 131-164) -/

/-- Response of `PUT /api/posters/:id` after validation has passed. -/
inductive PutPosterResult where
  | notFound (status : Nat) (error : String)
  | ok (status : Nat) (poster : PosterRow)
deriving DecidableEq, Repr

/-- Handler body of `PUT /api/posters/:id` (posters.js lines 142-159),
on an already-validated body `p`: look up the existing poster (404 when
absent); when the body carries a truthy `imageUrl` that differs from the
truthy stored one, delete the old file; then run `updatePoster`. -/
def putPosterRoute (db : List PosterRow) (fs : FileSystem) (id : String)
    (p : PosterPatch) (now : Nat) :
    PutPosterResult × List PosterRow × FileSystem :=
  match getPosterById db id with
  | none => (PutPosterResult.notFound 404 "Poster not found", db, fs)
  | some existing =>
    let fs2 :=
      if truthy p.imageUrl && !(existing.image_url == "")
          && !(p.imageUrl == some existing.image_url) then
        deleteImageFile fs existing.image_url
      else fs
    match updatePoster db id p now with
    | (none, db2) => (PutPosterResult.notFound 404 "Poster not found", db2, fs2)
    | (some updated, db2) => (PutPosterResult.ok 200 updated, db2, fs2)

/-! ## Event delete route (src/routes/events.js DELETE /:id, lines 292-306) -/

/-- Response of `DELETE /api/events/:id`. -/
inductive DeleteEventResult where
  | notFound (status : Nat) (error : String)
  | ok (status : Nat) (message : String)
deriving DecidableEq, Repr

/-- Handler body of `DELETE /api/events/:id` (events.js lines 293-306):
it calls `db.deleteEvent` and answers 404 or 200.  The route performs no
filesystem operation, so the filesystem state passes through unchanged. -/
def deleteEventRoute (db : List EventRow) (fs : FileSystem) (id : String) :
    DeleteEventResult × List EventRow × FileSystem :=
  match deleteEvent db id with
  | (false, db2) => (DeleteEventResult.notFound 404 "Event not found", db2, fs)
  | (true, db2) => (DeleteEventResult.ok 200 "Event deleted successfully", db2, fs)

/-! ## Users routes (src/routes/users.js) -/

/-- Response of `POST /api/users`. -/
inductive PostUsersResult where
  | badRequest (status : Nat) (error : String)
  | created (status : Nat) (message : String) (user : Option UserView)
deriving DecidableEq, Repr

/-- users.js line 310. -/
def userCreatedMsg : String :=
  "User created successfully. They will be asked to change their password on first login."

/-- Handler body of `POST /api/users` (users.js lines 277-317): requires
email and password, password length ≥ 6, email not already taken; then
`createUser` with `role || 'admin'` and `mustChangePassword: true`.
The handler never consults the authenticated caller's role. -/
def postUsersRoute (store : List UserRow) (email password : Option String)
    (name : Option String) (role : Option String) (newId : String) (salt : Nat)
    (now : Nat) : PostUsersResult × List UserRow :=
  match email, password with
  | none, _ => (PostUsersResult.badRequest 400 "Email and password are required", store)
  | _, none => (PostUsersResult.badRequest 400 "Email and password are required", store)
  | some e, some pw =>
    if e == "" || pw == "" then
      (PostUsersResult.badRequest 400 "Email and password are required", store)
    else if pw.length < 6 then
      (PostUsersResult.badRequest 400 "Password must be at least 6 characters", store)
    else
      match getUserByEmail store e with
      | some _ =>
        (PostUsersResult.badRequest 400 "A user with this email already exists", store)
      | none =>
        match createUser store newId (lowerStr e) (hashPassword pw salt) name role
            true now with
        | none => (PostUsersResult.badRequest 500 "Could not create user", store)
        | some (created, store2) =>
          (PostUsersResult.created 201 userCreatedMsg created, store2)

/-- Response of `PUT /api/users/:id`. -/
inductive PutUserResult where
  | badRequest (status : Nat) (error : String)
  | notFound (status : Nat) (error : String)
  | ok (status : Nat) (user : UserView)
deriving DecidableEq, Repr

/-- users.js line 327. -/
def selfChangeMsg : String := "You cannot change your own role or deactivate yourself"

/-- Handler body of `PUT /api/users/:id` (users.js lines 320-349):
`callerId` is `req.user.id` from the gate's payload.  A self-targeted
request that sets `role` or `isActive` is rejected with 400 before any
store access, independent of the caller's role. -/
def putUserRoute (store : List UserRow) (callerId targetId : String)
    (p : UserPatch) (now : Nat) : PutUserResult × List UserRow :=
  if targetId == callerId && (p.role.isSome || p.isActive.isSome) then
    (PutUserResult.badRequest 400 selfChangeMsg, store)
  else
    let emailConflict :=
      if truthy p.email then
        match getUserByEmail store (p.email.getD "") with
        | some other => !(other.id == targetId)
        | none => false
      else false
    if emailConflict then
      (PutUserResult.badRequest 400 "This email is already in use", store)
    else
      match updateUser store targetId p now with
      | (none, store2) => (PutUserResult.notFound 404 "User not found", store2)
      | (some updated, store2) => (PutUserResult.ok 200 updated, store2)

/-- Response of `DELETE /api/users/:id`. -/
inductive DeleteUserResult where
  | badRequest (status : Nat) (error : String)
  | notFound (status : Nat) (error : String)
  | ok (status : Nat) (message : String)
deriving DecidableEq, Repr

/-- users.js line 388. -/
def selfDeleteMsg : String := "You cannot deactivate your own account"

/-- Handler body of `DELETE /api/users/:id` (users.js lines 384-402):
a self-targeted delete is rejected with 400 before any store access;
otherwise `deleteUser` soft-deletes. -/
def deleteUserRoute (store : List UserRow) (callerId targetId : String)
    (now : Nat) : DeleteUserResult × List UserRow :=
  if targetId == callerId then
    (DeleteUserResult.badRequest 400 selfDeleteMsg, store)
  else
    match deleteUser store targetId now with
    | (false, store2) => (DeleteUserResult.notFound 404 "User not found", store2)
    | (true, store2) =>
      (DeleteUserResult.ok 200 "User deactivated successfully", store2)

/-- Response of `PUT /api/users/:id/reset-password`. -/
inductive ResetPasswordResult where
  | badRequest (status : Nat) (error : String)
  | notFound (status : Nat) (error : String)
  | ok (status : Nat) (message : String)
deriving DecidableEq, Repr

/-- users.js line 375. -/
def passwordResetMsg : String :=
  "Password has been reset. The user will need to change it on their next login."

/-- Handler body of `PUT /api/users/:id/reset-password` (users.js lines
352-381): validates the new password, looks the user up, calls
`updateUserPassword` and then `updateUser` with an empty patch. -/
def resetPasswordRoute (store : List UserRow) (targetId : String)
    (newPassword : Option String) (salt : Nat) (now : Nat) :
    ResetPasswordResult × List UserRow :=
  match newPassword with
  | none =>
    (ResetPasswordResult.badRequest 400 "New password must be at least 6 characters", store)
  | some pw =>
    if pw == "" || pw.length < 6 then
      (ResetPasswordResult.badRequest 400 "New password must be at least 6 characters", store)
    else
      match getUserById store targetId with
      | none => (ResetPasswordResult.notFound 404 "User not found", store)
      | some user =>
        let (_, store2) := updateUserPassword store user.id (hashPassword pw salt) now
        let (_, store3) := updateUser store2 user.id {} now
        (ResetPasswordResult.ok 200 passwordResetMsg, store3)

/-! ## Generic list lemmas for the row-level update/delete semantics -/

/-- `find?` commutes with a map that does not change which rows match. -/
theorem find_map_congr {α : Type} (p : α → Bool) (f : α → α)
    (hp : ∀ y, p (f y) = p y) :
    ∀ l : List α, (l.map f).find? p = (l.find? p).map f := by
  intro l
  induction l with
  | nil => simp
  | cons x xs ih =>
    by_cases h : p x = true
    · simp [List.find?_cons, hp, h]
    · have h' : p x = false := by simpa using h
      simp [List.find?_cons, hp, h', ih]

/-- `find?` over a filtered list fails when the filter contradicts the
search predicate. -/
theorem find_filter_none {α : Type} (p q : α → Bool) (l : List α)
    (h : ∀ x, q x = true → p x = false) :
    (l.filter q).find? p = none := by
  refine List.find?_eq_none.2 (fun x hx hpx => ?_)
  have hq := (List.mem_filter.1 hx).2
  simp [h x hq] at hpx

/-- A member of a mapped list is the image of a member. -/
theorem mem_map_elim {α : Type} {f : α → α} {l : List α} {x : α}
    (hx : x ∈ l.map f) : ∃ y ∈ l, f y = x := by
  rcases List.mem_map.1 hx with ⟨y, hy, hfy⟩
  exact ⟨y, hy, hfy⟩

/-! ## Claim theorems -/

/-- C1: for every inbound request to a protected operation, a missing
`Authorization` header or one not starting with `'Bearer '` is rejected
with the AuthRequired message and status 401 regardless of the handler
(so before any handler logic runs); a present bearer token that fails
verification is rejected with the distinct SessionExpired message, also
401; and `verifyToken` applied to a token past its 24-hour window
returns `none` (it is a total function, so it never throws). -/
theorem auth_gate_contract {α : Type} (decode : String → Jwt) (secret : String)
    (now : Nat) (handler : TokenPayload → α) :
    (runProtected decode secret now none handler =
      RouteOutcome.reject 401 authRequiredMsg) ∧
    (∀ h : String, strStartsWith h "Bearer " = false →
      runProtected decode secret now (some h) handler =
        RouteOutcome.reject 401 authRequiredMsg) ∧
    (∀ h : String, strStartsWith h "Bearer " = true →
      verifyToken (decode (bearerToken h)) secret now = none →
      runProtected decode secret now (some h) handler =
        RouteOutcome.reject 401 sessionExpiredMsg) ∧
    (∀ (p : TokenPayload) (s : String) (iat : Nat),
      iat + tokenValiditySeconds ≤ now →
      verifyToken (Jwt.signed p s iat) secret now = none) ∧
    authRequiredMsg ≠ sessionExpiredMsg := by
  refine ⟨rfl, ?_, ?_, ?_, by decide⟩
  · intro h hbad
    simp [runProtected, authMiddleware, hbad]
  · intro h hgood hver
    simp [runProtected, authMiddleware, hgood, hver]
  · intro p s iat hexp
    simp only [verifyToken, ite_eq_right_iff]
    intro ⟨_, hlt⟩
    omega

/-- Witness for `auth_gate_contract` at concrete requests. -/
theorem auth_gate_contract_witness :
    (runProtected (fun s => Jwt.malformed s) "k" 5 (some "Basic x")
        (fun p => p.role) = RouteOutcome.reject 401 authRequiredMsg) ∧
    (runProtected (fun s => Jwt.malformed s) "k" 5 (some "Bearer abc")
        (fun p => p.role) = RouteOutcome.reject 401 sessionExpiredMsg) ∧
    (verifyToken (Jwt.signed ⟨"user-1", "a@x.com", "admin"⟩ "k" 0) "k" 86400 = none) :=
  ⟨(auth_gate_contract (fun s => Jwt.malformed s) "k" 5 (fun p => p.role)).2.1
      "Basic x" (by decide),
   (auth_gate_contract (fun s => Jwt.malformed s) "k" 5 (fun p => p.role)).2.2.1
      "Bearer abc" (by decide) (by decide),
   (auth_gate_contract (fun s => Jwt.malformed s) "k" 86400 (fun p => p.role)).2.2.2.1
      ⟨"user-1", "a@x.com", "admin"⟩ "k" 0 (by decide)⟩

/-- When the id resolves to a row, `updateUser` returns the patched row's
projection and patches every row carrying that id. -/
theorem updateUser_found (store : List UserRow) (id : String) (patch : UserPatch)
    (now : Nat) (y : UserRow)
    (hy : store.find? (fun r => r.id == id) = some y) :
    updateUser store id patch now =
      (some (toUserView (applyUserPatch patch now y)),
       store.map (fun r => if r.id == id then applyUserPatch patch now r else r)) := by
  have hpy := List.find?_some hy
  simp only [] at hpy
  have hpg : ∀ z : UserRow,
      (((fun r : UserRow => if r.id == id then applyUserPatch patch now r else r) z).id == id)
        = (z.id == id) := by
    intro z
    by_cases h : z.id = id <;> simp [applyUserPatch, h]
  have h3 := find_map_congr (fun r : UserRow => r.id == id)
      (fun r => if r.id == id then applyUserPatch patch now r else r) hpg store
  simp only [updateUser, hy, getUserById, h3]
  have hid : y.id = id := by simpa using hpy
  simp [hid]

/-- `updateLastLogin` changes no row's id, so id lookups commute with it. -/
theorem updateLastLogin_find (store : List UserRow) (uid id : String) (now : Nat) :
    (updateLastLogin store uid now).find? (fun r => r.id == id) =
      (store.find? (fun r => r.id == id)).map
        (fun r => if r.id == uid then { r with last_login := some now } else r) := by
  have hpf : ∀ z : UserRow,
      (((fun r : UserRow => if r.id == uid then { r with last_login := some now } else r) z).id
        == id) = (z.id == id) := by
    intro z
    by_cases h : z.id = uid <;> simp [h]
  simpa [updateLastLogin] using
    find_map_congr (fun r : UserRow => r.id == id)
      (fun r => if r.id == uid then { r with last_login := some now } else r) hpf store

/-- C2: for credentials that validate, the login route issues a token
embedding exactly the id, email and role claims with a 24-hour window;
within that window verification returns the role stored at issuance;
and after a later role change to the stored user (via `updateUser` on
the post-login store, which then reports the new role) the token still
verifies to the payload fixed at issuance, since verification reads
only the token. -/
theorem login_role_at_issuance (store : List UserRow) (stored : UserRow)
    (email password secret newRole : String) (now now2 now3 : Nat) :
    getUserByEmail store email = some stored →
    comparePassword password stored.password_hash = true →
    1 ≤ email.length → 6 ≤ password.length →
    ((loginRoute store email password secret now).1 =
      LoginResult.ok
        { id := stored.id, email := stored.email, name := stored.name,
          role := stored.role, mustChangePassword := stored.must_change_password }
        (Jwt.signed { id := stored.id, email := stored.email, role := stored.role }
          secret now)) ∧
    (now2 < now + tokenValiditySeconds →
      verifyToken
        (Jwt.signed { id := stored.id, email := stored.email, role := stored.role }
          secret now) secret now2 =
        some { id := stored.id, email := stored.email, role := stored.role }) ∧
    (∃ v store2,
      updateUser (loginRoute store email password secret now).2 stored.id
        { role := some newRole } now3 = (some v, store2) ∧
      v.role = newRole) := by
  intro hbe hcp hel hpl
  have hnv : ¬(email.length < 1 ∨ password.length < 6) := by omega
  have hlogin : loginRoute store email password secret now =
      (LoginResult.ok
        { id := stored.id, email := stored.email, name := stored.name,
          role := stored.role, mustChangePassword := stored.must_change_password }
        (Jwt.signed { id := stored.id, email := stored.email, role := stored.role }
          secret now),
       updateLastLogin store stored.id now) := by
    simp [loginRoute, hnv, verifyCredentials, hbe, hcp, generateToken]
    omega
  refine ⟨by rw [hlogin], ?_, ?_⟩
  · intro h2
    simp [verifyToken, h2]
  · rw [hlogin]
    have hmem : stored ∈ store := List.mem_of_find?_eq_some hbe
    have h2 : (store.find? (fun r => r.id == stored.id)).isSome :=
      List.find?_isSome.2 ⟨stored, hmem, by simp⟩
    obtain ⟨y, hy⟩ := Option.isSome_iff_exists.1 h2
    have hfind : (updateLastLogin store stored.id now).find? (fun r => r.id == stored.id) =
        some (if y.id == stored.id then { y with last_login := some now } else y) := by
      rw [updateLastLogin_find, hy]; rfl
    have hupd := updateUser_found (updateLastLogin store stored.id now) stored.id
      { role := some newRole } now3 _ hfind
    refine ⟨_, _, hupd, ?_⟩
    have hyid := List.find?_some hy
    simp [toUserView, applyUserPatch, hyid]

/-- Witness for `login_role_at_issuance` on a concrete one-user store. -/
theorem login_role_at_issuance_witness :
    ((loginRoute
        [{ id := "user-1", email := "a@x.com", password_hash := { pw := "secret1", salt := 0 },
           name := none, role := "admin", must_change_password := false, is_active := true,
           last_login := none, created_at := 0, updated_at := 0 }]
        "a@x.com" "secret1" "k" 100).1 =
      LoginResult.ok
        { id := "user-1", email := "a@x.com", name := none, role := "admin",
          mustChangePassword := false }
        (Jwt.signed { id := "user-1", email := "a@x.com", role := "admin" } "k" 100)) ∧
    (verifyToken (Jwt.signed { id := "user-1", email := "a@x.com", role := "admin" } "k" 100)
        "k" 200 =
      some { id := "user-1", email := "a@x.com", role := "admin" }) := by
  have h := login_role_at_issuance
    [{ id := "user-1", email := "a@x.com", password_hash := { pw := "secret1", salt := 0 },
       name := none, role := "admin", must_change_password := false, is_active := true,
       last_login := none, created_at := 0, updated_at := 0 }]
    { id := "user-1", email := "a@x.com", password_hash := { pw := "secret1", salt := 0 },
      name := none, role := "admin", must_change_password := false, is_active := true,
      last_login := none, created_at := 0, updated_at := 0 }
    "a@x.com" "secret1" "k" "super_admin" 100 200 300
    (by decide) (by decide) (by decide) (by decide)
  exact ⟨h.1, h.2.1 (by decide)⟩

/-- When the id resolves to a row, `updatePoster` returns the patched row
and patches every row carrying that id. -/
theorem updatePoster_found (db : List PosterRow) (id : String) (p : PosterPatch)
    (now : Nat) (y : PosterRow)
    (hy : db.find? (fun r => r.id == id) = some y) :
    updatePoster db id p now =
      (some (applyPosterPatch p now y),
       db.map (fun r => if r.id == id then applyPosterPatch p now r else r)) := by
  have hpy := List.find?_some hy
  have hid : y.id = id := by simpa using hpy
  have hpg : ∀ z : PosterRow,
      (((fun r : PosterRow => if r.id == id then applyPosterPatch p now r else r) z).id == id)
        = (z.id == id) := by
    intro z
    by_cases h : z.id = id <;> simp [applyPosterPatch, h]
  have h3 := find_map_congr (fun r : PosterRow => r.id == id)
      (fun r => if r.id == id then applyPosterPatch p now r else r) hpg db
  simp only [updatePoster, getPosterById, hy, h3]
  simp [hid]

/-- When the id resolves to a row, `updateEvent` returns the patched row
and patches every row carrying that id. -/
theorem updateEvent_found (db : List EventRow) (id : String) (p : EventPatch)
    (now : Nat) (y : EventRow)
    (hy : db.find? (fun r => r.id == id) = some y) :
    updateEvent db id p now =
      (some (applyEventPatch p now y),
       db.map (fun r => if r.id == id then applyEventPatch p now r else r)) := by
  have hpy := List.find?_some hy
  have hid : y.id = id := by simpa using hpy
  have hpg : ∀ z : EventRow,
      (((fun r : EventRow => if r.id == id then applyEventPatch p now r else r) z).id == id)
        = (z.id == id) := by
    intro z
    by_cases h : z.id = id <;> simp [applyEventPatch, h]
  have h3 := find_map_congr (fun r : EventRow => r.id == id)
      (fun r => if r.id == id then applyEventPatch p now r else r) hpg db
  simp only [updateEvent, getEventById, hy, h3]
  simp [hid]

/-- C3: partial update is a field-by-field coalesce.  For posters and
events alike: the empty patch changes only `updated_at`; any field left
unset in the patch keeps its stored value (in particular the nullable
poster `description` is not overwritten with null); and update of an
absent id returns `none` and leaves the table untouched. -/
theorem update_is_coalesce (dbp : List PosterRow) (dbe : List EventRow) (id : String)
    (pp : PosterPatch) (pe : EventPatch) (now : Nat) :
    (∀ r, getPosterById dbp id = some r →
      (updatePoster dbp id {} now).1 = some { r with updated_at := now }) ∧
    (∀ r u, getPosterById dbp id = some r →
      (updatePoster dbp id pp now).1 = some u →
      (pp.title = none → u.title = r.title) ∧
      (pp.category = none → u.category = r.category) ∧
      (pp.imageUrl = none → u.image_url = r.image_url) ∧
      (pp.description = none → u.description = r.description) ∧
      (pp.isActive = none → u.is_active = r.is_active) ∧
      (pp.displayOrder = none → u.display_order = r.display_order) ∧
      u.id = r.id ∧ u.created_at = r.created_at) ∧
    (getPosterById dbp id = none → updatePoster dbp id pp now = (none, dbp)) ∧
    (∀ r, getEventById dbe id = some r →
      (updateEvent dbe id {} now).1 = some { r with updated_at := now }) ∧
    (∀ r u, getEventById dbe id = some r →
      (updateEvent dbe id pe now).1 = some u →
      (pe.title = none → u.title = r.title) ∧
      (pe.date = none → u.date = r.date) ∧
      (pe.time = none → u.time = r.time) ∧
      (pe.description = none → u.description = r.description) ∧
      (pe.imageUrl = none → u.image_url = r.image_url) ∧
      (pe.isActive = none → u.is_active = r.is_active) ∧
      u.id = r.id ∧ u.created_at = r.created_at) ∧
    (getEventById dbe id = none → updateEvent dbe id pe now = (none, dbe)) := by
  refine ⟨?_, ?_, ?_, ?_, ?_, ?_⟩
  · intro r hr
    rw [updatePoster_found dbp id {} now r hr]
    simp [applyPosterPatch]
  · intro r u hr hu
    rw [updatePoster_found dbp id pp now r hr] at hu
    have : u = applyPosterPatch pp now r := by
      simpa using hu.symm
    subst this
    refine ⟨?_, ?_, ?_, ?_, ?_, ?_, ?_, ?_⟩ <;>
      first
        | (intro h; simp [applyPosterPatch, h])
        | simp [applyPosterPatch]
  · intro hr
    simp [updatePoster, hr]
  · intro r hr
    rw [updateEvent_found dbe id {} now r hr]
    simp [applyEventPatch]
  · intro r u hr hu
    rw [updateEvent_found dbe id pe now r hr] at hu
    have : u = applyEventPatch pe now r := by
      simpa using hu.symm
    subst this
    refine ⟨?_, ?_, ?_, ?_, ?_, ?_, ?_, ?_⟩ <;>
      first
        | (intro h; simp [applyEventPatch, h])
        | simp [applyEventPatch]
  · intro hr
    simp [updateEvent, hr]

/-- Witness for `update_is_coalesce` on one-row tables: the empty patch
changes only `updated_at`, and a patch setting only the title keeps the
unset fields. -/
theorem update_is_coalesce_witness :
    ((updatePoster
        [{ id := "poster-1", title := "t", category := "theme",
           image_url := "/uploads/posters/a.jpg", description := some "d",
           is_active := true, display_order := 2, created_at := 5, updated_at := 5 }]
        "poster-1" {} 9).1 =
      some { id := "poster-1", title := "t", category := "theme",
             image_url := "/uploads/posters/a.jpg", description := some "d",
             is_active := true, display_order := 2, created_at := 5, updated_at := 9 }) ∧
    ((updateEvent
        [{ id := "event-1", title := "X", date := "2025-12-31", time := "6-9PM",
           description := "d", image_url := "/uploads/events/a.jpg",
           is_active := true, created_at := 5, updated_at := 5 }]
        "event-1" {} 9).1 =
      some { id := "event-1", title := "X", date := "2025-12-31", time := "6-9PM",
             description := "d", image_url := "/uploads/events/a.jpg",
             is_active := true, created_at := 5, updated_at := 9 }) ∧
    (updatePoster ([] : List PosterRow) "poster-9" {} 9 = (none, [])) := by
  refine ⟨?_, ?_, ?_⟩
  · exact (update_is_coalesce
      [{ id := "poster-1", title := "t", category := "theme",
         image_url := "/uploads/posters/a.jpg", description := some "d",
         is_active := true, display_order := 2, created_at := 5, updated_at := 5 }]
      [] "poster-1" {} {} 9).1
      { id := "poster-1", title := "t", category := "theme",
        image_url := "/uploads/posters/a.jpg", description := some "d",
        is_active := true, display_order := 2, created_at := 5, updated_at := 5 }
      (by decide)
  · exact (update_is_coalesce []
      [{ id := "event-1", title := "X", date := "2025-12-31", time := "6-9PM",
         description := "d", image_url := "/uploads/events/a.jpg",
         is_active := true, created_at := 5, updated_at := 5 }]
      "event-1" {} {} 9).2.2.2.1
      { id := "event-1", title := "X", date := "2025-12-31", time := "6-9PM",
        description := "d", image_url := "/uploads/events/a.jpg",
        is_active := true, created_at := 5, updated_at := 5 }
      (by decide)
  · exact (update_is_coalesce [] [] "poster-9" {} {} 9).2.2.1 (by decide)

/-- C4: for each content kind, creating an item (with a fresh id, as the
route generates) and then deleting it makes `getById` return `none` and
removes it from the active listing (rows are physically removed); and
`delete` returns `false` exactly when no row with the id exists. -/
theorem create_delete_roundtrip
    (dbe : List EventRow) (dbp : List PosterRow) (dba : List AnnouncementRow)
    (id t d tm ds iu cat ic bd bv : String) (pdesc : Option String) (now : Nat) :
    (dbe.any (fun r => r.id == id) = false →
      ∀ res db1, createEvent dbe id t d tm ds iu now = some (res, db1) →
        (deleteEvent db1 id).1 = true ∧
        getEventById (deleteEvent db1 id).2 id = none ∧
        (∀ r ∈ getEvents (deleteEvent db1 id).2, r.id ≠ id)) ∧
    ((deleteEvent dbe id).1 = false ↔ getEventById dbe id = none) ∧
    (dbp.any (fun r => r.id == id) = false →
      ∀ res db1, createPoster dbp id t cat iu pdesc now = some (res, db1) →
        (deletePoster db1 id).1 = true ∧
        getPosterById (deletePoster db1 id).2 id = none ∧
        (∀ r ∈ getPosters (deletePoster db1 id).2, r.id ≠ id)) ∧
    ((deletePoster dbp id).1 = false ↔ getPosterById dbp id = none) ∧
    (dba.any (fun r => r.id == id) = false →
      ∀ res db1, createAnnouncement dba id t d ds ic bd bv now = some (res, db1) →
        (deleteAnnouncement db1 id).1 = true ∧
        getAnnouncementById (deleteAnnouncement db1 id).2 id = none ∧
        (∀ r ∈ getAnnouncements (deleteAnnouncement db1 id).2, r.id ≠ id)) ∧
    ((deleteAnnouncement dba id).1 = false ↔ getAnnouncementById dba id = none) := by
  have hq : ∀ s : String, ∀ x : String, ((x == s) = false → True) := by intro _ _ _; trivial
  refine ⟨?_, ?_, ?_, ?_, ?_, ?_⟩
  · intro hfresh res db1 hcreate
    simp only [createEvent, hfresh, Bool.false_eq_true, if_false, Option.some.injEq,
      Prod.mk.injEq] at hcreate
    obtain ⟨-, hdb1⟩ := hcreate
    subst hdb1
    set row : EventRow := ⟨id, t, d, tm, ds, iu, true, now, now⟩ with hrow
    have hmemrow : row ∈ dbe ++ [row] := by simp
    have hsome : ((dbe ++ [row]).find? (fun r => r.id == id)).isSome :=
      List.find?_isSome.2 ⟨row, hmemrow, by simp [hrow]⟩
    obtain ⟨y, hy⟩ := Option.isSome_iff_exists.1 hsome
    have hfilter : ∀ x : EventRow, (!(x.id == id)) = true → (x.id == id) = false := by
      intro x hx
      simpa using hx
    refine ⟨?_, ?_, ?_⟩
    · simp [deleteEvent, getEventById, hy]
    · simp only [deleteEvent, getEventById, hy]
      exact find_filter_none _ _ _ hfilter
    · intro r hr
      simp only [deleteEvent, getEventById, hy] at hr
      have hr2 : r ∈ ((dbe ++ [row]).filter
          (fun r => !(r.id == id))).filter (fun r => r.is_active) :=
        List.mem_insertionSort _ |>.1 hr
      have hr3 := (List.mem_filter.1 (List.mem_filter.1 hr2).1).2
      simpa using hr3
  · rcases h : getEventById dbe id with - | y <;> simp [deleteEvent, h]
  · intro hfresh res db1 hcreate
    simp only [createPoster, hfresh, Bool.false_eq_true, if_false, Option.some.injEq,
      Prod.mk.injEq] at hcreate
    obtain ⟨-, hdb1⟩ := hcreate
    subst hdb1
    set row : PosterRow :=
      ⟨id, t, cat, iu, match pdesc with
        | none => none
        | some dd => if dd == "" then none else some dd, true, 0, now, now⟩ with hrow
    have hmemrow : row ∈ dbp ++ [row] := by simp
    have hsome : ((dbp ++ [row]).find? (fun r => r.id == id)).isSome :=
      List.find?_isSome.2 ⟨row, hmemrow, by simp [hrow]⟩
    obtain ⟨y, hy⟩ := Option.isSome_iff_exists.1 hsome
    have hfilter : ∀ x : PosterRow, (!(x.id == id)) = true → (x.id == id) = false := by
      intro x hx
      simpa using hx
    refine ⟨?_, ?_, ?_⟩
    · simp [deletePoster, getPosterById, hy]
    · simp only [deletePoster, getPosterById, hy]
      exact find_filter_none _ _ _ hfilter
    · intro r hr
      simp only [deletePoster, getPosterById, hy] at hr
      have hr2 : r ∈ ((dbp ++ [row]).filter (fun r => !(r.id == id))).filter
          (fun r => r.is_active) :=
        List.mem_insertionSort _ |>.1 hr
      have hr3 := (List.mem_filter.1 (List.mem_filter.1 hr2).1).2
      simpa using hr3
  · rcases h : getPosterById dbp id with - | y <;> simp [deletePoster, h]
  · intro hfresh res db1 hcreate
    simp only [createAnnouncement, hfresh, Bool.false_eq_true, if_false, Option.some.injEq,
      Prod.mk.injEq] at hcreate
    obtain ⟨-, hdb1⟩ := hcreate
    subst hdb1
    set row : AnnouncementRow := ⟨id, t, d, ds, ic, bd, bv, true, now, now⟩ with hrow
    have hmemrow : row ∈ dba ++ [row] := by simp
    have hsome : ((dba ++ [row]).find? (fun r => r.id == id)).isSome :=
      List.find?_isSome.2 ⟨row, hmemrow, by simp [hrow]⟩
    obtain ⟨y, hy⟩ := Option.isSome_iff_exists.1 hsome
    have hfilter : ∀ x : AnnouncementRow, (!(x.id == id)) = true → (x.id == id) = false := by
      intro x hx
      simpa using hx
    refine ⟨?_, ?_, ?_⟩
    · simp [deleteAnnouncement, getAnnouncementById, hy]
    · simp only [deleteAnnouncement, getAnnouncementById, hy]
      exact find_filter_none _ _ _ hfilter
    · intro r hr
      simp only [deleteAnnouncement, getAnnouncementById, hy] at hr
      have hr2 : r ∈ ((dba ++ [row]).filter
          (fun r => !(r.id == id))).filter (fun r => r.is_active) :=
        List.mem_insertionSort _ |>.1 hr
      have hr3 := (List.mem_filter.1 (List.mem_filter.1 hr2).1).2
      simpa using hr3
  · rcases h : getAnnouncementById dba id with - | y <;> simp [deleteAnnouncement, h]

/-- Witness for `create_delete_roundtrip`: create one event in an empty
table, delete it, and check the lookups. -/
theorem create_delete_roundtrip_witness :
    ((deleteEvent
        [{ id := "event-1", title := "X", date := "2025-12-31", time := "6-9PM",
           description := "d", image_url := "/uploads/events/a.jpg",
           is_active := true, created_at := 7, updated_at := 7 }] "event-1").1 = true) ∧
    (getEventById
        (deleteEvent
          [{ id := "event-1", title := "X", date := "2025-12-31", time := "6-9PM",
             description := "d", image_url := "/uploads/events/a.jpg",
             is_active := true, created_at := 7, updated_at := 7 }] "event-1").2
        "event-1" = none) ∧
    ((deleteEvent ([] : List EventRow) "event-9").1 = false ↔
      getEventById ([] : List EventRow) "event-9" = none) := by
  have h := (create_delete_roundtrip [] [] [] "event-1" "X" "2025-12-31" "6-9PM" "d"
      "/uploads/events/a.jpg" "theme" "i" "b" "default" none 7).1 (by decide)
      (some { id := "event-1", title := "X", date := "2025-12-31", time := "6-9PM",
              description := "d", image_url := "/uploads/events/a.jpg",
              is_active := true, created_at := 7, updated_at := 7 })
      [{ id := "event-1", title := "X", date := "2025-12-31", time := "6-9PM",
         description := "d", image_url := "/uploads/events/a.jpg",
         is_active := true, created_at := 7, updated_at := 7 }]
      (by decide)
  have h2 := (create_delete_roundtrip [] [] [] "event-9" "X" "2025-12-31" "6-9PM" "d"
      "/uploads/events/a.jpg" "theme" "i" "b" "default" none 7).2.1
  exact ⟨h.1, h.2.1, h2⟩

/-- C5: after `deleteUser` (soft delete), the email lookup used by login
no longer returns the user, login with their correct credentials answers
the invalid-credentials 401, and the id-based admin lookup still returns
the record with `isActive = false`.  The store is assumed consistent
with the SQL constraints: the id resolves to the row itself and the
email is unique. -/
theorem soft_delete_hides_login
    (store : List UserRow) (u : UserRow) (e password secret : String) (now now2 : Nat) :
    store.find? (fun r => r.id == u.id) = some u →
    getUserByEmail store e = some u →
    (∀ v ∈ store, v.email = lowerStr e → v.id = u.id) →
    1 ≤ e.length → 6 ≤ password.length →
    (deleteUser store u.id now).1 = true ∧
    getUserByEmail (deleteUser store u.id now).2 e = none ∧
    ((loginRoute (deleteUser store u.id now).2 e password secret now2).1 =
      LoginResult.unauthorized 401 invalidCredentialsMsg) ∧
    getUserById (deleteUser store u.id now).2 u.id =
      some { toUserView u with isActive := false, updatedAt := now } := by
  intro hfind hbe huniq hel hpl
  have hdel : deleteUser store u.id now =
      (true, store.map (fun r => if r.id == u.id then
        { r with is_active := false, updated_at := now } else r)) := by
    simp [deleteUser, hfind]
  have hnone : getUserByEmail (deleteUser store u.id now).2 e = none := by
    rw [hdel]
    refine List.find?_eq_none.2 (fun x hx hpx => ?_)
    obtain ⟨v, hv, hfv⟩ := mem_map_elim hx
    by_cases h : v.id = u.id
    · simp only [h] at hfv
      simp [← hfv] at hpx
    · have hxv : x = v := by
        simpa [h] using hfv.symm
      have hpx2 : x.email = lowerStr e ∧ x.is_active = true := by
        simpa using hpx
      have hvemail : v.email = lowerStr e := by
        rw [← hxv]
        exact hpx2.1
      exact h (huniq v hv hvemail)
  refine ⟨by rw [hdel], hnone, ?_, ?_⟩
  · have hnv : ¬(e.length = 0 ∨ password.length < 6) := by omega
    simp [loginRoute, hnv, verifyCredentials, hnone]
  · rw [hdel]
    have hpf : ∀ z : UserRow,
        (((fun r : UserRow => if r.id == u.id then
            { r with is_active := false, updated_at := now } else r) z).id == u.id)
          = (z.id == u.id) := by
      intro z
      by_cases h : z.id = u.id <;> simp [h]
    have h3 := find_map_congr (fun r : UserRow => r.id == u.id)
      (fun r => if r.id == u.id then { r with is_active := false, updated_at := now } else r)
      hpf store
    simp only [getUserById, h3, hfind]
    simp [toUserView]

/-- Witness for `soft_delete_hides_login` on a concrete one-user store. -/
theorem soft_delete_hides_login_witness :
    ((deleteUser
        [{ id := "user-1", email := "a@x.com", password_hash := { pw := "secret1", salt := 0 },
           name := none, role := "admin", must_change_password := false, is_active := true,
           last_login := none, created_at := 0, updated_at := 0 }] "user-1" 50).1 = true) ∧
    ((loginRoute
        (deleteUser
          [{ id := "user-1", email := "a@x.com", password_hash := { pw := "secret1", salt := 0 },
             name := none, role := "admin", must_change_password := false, is_active := true,
             last_login := none, created_at := 0, updated_at := 0 }] "user-1" 50).2
        "a@x.com" "secret1" "k" 60).1 =
      LoginResult.unauthorized 401 invalidCredentialsMsg) ∧
    (getUserById
        (deleteUser
          [{ id := "user-1", email := "a@x.com", password_hash := { pw := "secret1", salt := 0 },
             name := none, role := "admin", must_change_password := false, is_active := true,
             last_login := none, created_at := 0, updated_at := 0 }] "user-1" 50).2
        "user-1" =
      some { id := "user-1", email := "a@x.com", name := none, role := "admin",
             mustChangePassword := false, isActive := false, lastLogin := none,
             createdAt := 0, updatedAt := 50 }) := by
  have h := soft_delete_hides_login
    [{ id := "user-1", email := "a@x.com", password_hash := { pw := "secret1", salt := 0 },
       name := none, role := "admin", must_change_password := false, is_active := true,
       last_login := none, created_at := 0, updated_at := 0 }]
    { id := "user-1", email := "a@x.com", password_hash := { pw := "secret1", salt := 0 },
      name := none, role := "admin", must_change_password := false, is_active := true,
      last_login := none, created_at := 0, updated_at := 0 }
    "a@x.com" "secret1" "k" 50 60
    (by decide) (by decide) (by decide) (by decide) (by decide)
  exact ⟨h.1, h.2.2.1, h.2.2.2⟩

/-- C6 counterexample: a concrete event whose `imageUrl` references the
uploaded file `/uploads/events/b.jpg`.  The delete route answers 200 and
the subsequent lookup is `none`, but the file is still on disk — the
route body (events.js lines 293-306) performs no filesystem operation,
contradicting the claim that the image file is removed on delete. -/
theorem delete_event_keeps_file_counterexample :
    ((deleteEventRoute
        [{ id := "event-1", title := "X", date := "2025-12-31", time := "6-9PM",
           description := "d", image_url := "/uploads/events/b.jpg",
           is_active := true, created_at := 7, updated_at := 7 }]
        { files := ["/uploads/events/b.jpg"], unlinkFails := fun _ => false }
        "event-1").1 =
      DeleteEventResult.ok 200 "Event deleted successfully") ∧
    (getEventById
        (deleteEventRoute
          [{ id := "event-1", title := "X", date := "2025-12-31", time := "6-9PM",
             description := "d", image_url := "/uploads/events/b.jpg",
             is_active := true, created_at := 7, updated_at := 7 }]
          { files := ["/uploads/events/b.jpg"], unlinkFails := fun _ => false }
          "event-1").2.1 "event-1" = none) ∧
    ("/uploads/events/b.jpg" ∈
      ((deleteEventRoute
          [{ id := "event-1", title := "X", date := "2025-12-31", time := "6-9PM",
             description := "d", image_url := "/uploads/events/b.jpg",
             is_active := true, created_at := 7, updated_at := 7 }]
          { files := ["/uploads/events/b.jpg"], unlinkFails := fun _ => false }
          "event-1").2.2).files) := by
  refine ⟨rfl, rfl, ?_⟩
  simp [deleteEventRoute, deleteEvent, getEventById]

/-- C6 amended: deleting an existing event answers 200 and a subsequent
`getById` returns `none`, but the route leaves the filesystem unchanged —
the stored image file is not removed from disk (it is orphaned). -/
theorem delete_event_orphans_file (db : List EventRow) (fs : FileSystem)
    (id : String) (r : EventRow) :
    getEventById db id = some r →
    ((deleteEventRoute db fs id).1 =
      DeleteEventResult.ok 200 "Event deleted successfully") ∧
    (getEventById (deleteEventRoute db fs id).2.1 id = none) ∧
    ((deleteEventRoute db fs id).2.2 = fs) := by
  intro hr
  have hfilter : ∀ x : EventRow, (!(x.id == id)) = true → (x.id == id) = false := by
    intro x hx
    simpa using hx
  refine ⟨?_, ?_, ?_⟩
  · simp [deleteEventRoute, deleteEvent, hr]
  · simp only [deleteEventRoute, deleteEvent, hr]
    exact find_filter_none _ _ _ hfilter
  · simp [deleteEventRoute, deleteEvent, hr]

/-- Witness for `delete_event_orphans_file` on a concrete table and
filesystem. -/
theorem delete_event_orphans_file_witness :
    ((deleteEventRoute
        [{ id := "event-2", title := "Y", date := "2026-01-01", time := "9AM",
           description := "e", image_url := "/uploads/events/c.jpg",
           is_active := true, created_at := 3, updated_at := 3 }]
        { files := ["/uploads/events/c.jpg"], unlinkFails := fun _ => false }
        "event-2").1 =
      DeleteEventResult.ok 200 "Event deleted successfully") ∧
    ((deleteEventRoute
        [{ id := "event-2", title := "Y", date := "2026-01-01", time := "9AM",
           description := "e", image_url := "/uploads/events/c.jpg",
           is_active := true, created_at := 3, updated_at := 3 }]
        { files := ["/uploads/events/c.jpg"], unlinkFails := fun _ => false }
        "event-2").2.2 =
      { files := ["/uploads/events/c.jpg"], unlinkFails := fun _ => false }) := by
  have h := delete_event_orphans_file
    [{ id := "event-2", title := "Y", date := "2026-01-01", time := "9AM",
       description := "e", image_url := "/uploads/events/c.jpg",
       is_active := true, created_at := 3, updated_at := 3 }]
    { files := ["/uploads/events/c.jpg"], unlinkFails := fun _ => false }
    "event-2"
    { id := "event-2", title := "Y", date := "2026-01-01", time := "9AM",
      description := "e", image_url := "/uploads/events/c.jpg",
      is_active := true, created_at := 3, updated_at := 3 }
    (by decide)
  exact ⟨h.1, h.2.2⟩

/-- C7: updating an existing poster whose stored `imageUrl` A is an
uploaded path with a new `imageUrl` B ≠ A deletes file A from disk and
leaves B (and its file) in place; an update whose `imageUrl` equals the
stored value deletes nothing; and an `unlinkSync` failure is swallowed —
the route still answers 200 with the updated record and the filesystem
is simply left as it was. -/
theorem poster_update_reconciles_image (db : List PosterRow) (fs : FileSystem)
    (id : String) (p : PosterPatch) (r : PosterRow) (B : String) (now : Nat) :
    db.find? (fun x => x.id == id) = some r →
    p.imageUrl = some B → B ≠ "" → r.image_url ≠ "" →
    strStartsWith r.image_url "/uploads/" = true →
    ((B ≠ r.image_url → fs.unlinkFails r.image_url = false →
      ((putPosterRoute db fs id p now).1 =
        PutPosterResult.ok 200 (applyPosterPatch p now r)) ∧
      r.image_url ∉ ((putPosterRoute db fs id p now).2.2).files ∧
      (B ∈ fs.files → B ∈ ((putPosterRoute db fs id p now).2.2).files) ∧
      (applyPosterPatch p now r).image_url = B) ∧
    (B = r.image_url →
      ((putPosterRoute db fs id p now).2.2 = fs) ∧
      ((putPosterRoute db fs id p now).1 =
        PutPosterResult.ok 200 (applyPosterPatch p now r))) ∧
    (fs.unlinkFails r.image_url = true →
      ((putPosterRoute db fs id p now).1 =
        PutPosterResult.ok 200 (applyPosterPatch p now r)) ∧
      ((putPosterRoute db fs id p now).2.2 = fs))) := by
  intro hfind himg hB hA hup
  have hupd := updatePoster_found db id p now r hfind
  have hd1 : (r.image_url == "") = false := by
    simpa using hA
  refine ⟨?_, ?_, ?_⟩
  · intro hne hfail
    have hc : (truthy p.imageUrl && !(r.image_url == "")
        && !(p.imageUrl == some r.image_url)) = true := by
      simp [truthy, himg, hB, hA, hne]
    have hroute : putPosterRoute db fs id p now =
        (PutPosterResult.ok 200 (applyPosterPatch p now r),
         db.map (fun x => if x.id == id then applyPosterPatch p now x else x),
         deleteImageFile fs r.image_url) := by
      simp [putPosterRoute, getPosterById, hfind, hc, hupd]
    rw [hroute]
    refine ⟨rfl, ?_, ?_, by simp [applyPosterPatch, himg]⟩
    · by_cases hmem : r.image_url ∈ fs.files <;>
        simp [deleteImageFile, hd1, hup, hmem, hfail, List.mem_filter]
    · intro hBmem
      by_cases hmem : r.image_url ∈ fs.files <;>
        simp [deleteImageFile, hd1, hup, hmem, hfail, List.mem_filter, hBmem, hne]
  · intro heq
    have hc : (truthy p.imageUrl && !(r.image_url == "")
        && !(p.imageUrl == some r.image_url)) = false := by
      simp [himg, heq]
    have hroute : putPosterRoute db fs id p now =
        (PutPosterResult.ok 200 (applyPosterPatch p now r),
         db.map (fun x => if x.id == id then applyPosterPatch p now x else x), fs) := by
      simp [putPosterRoute, getPosterById, hfind, hc, hupd]
    rw [hroute]
    exact ⟨rfl, rfl⟩
  · intro hfail
    by_cases hne : B = r.image_url
    · have hc : (truthy p.imageUrl && !(r.image_url == "")
          && !(p.imageUrl == some r.image_url)) = false := by
        simp [himg, hne]
      have hroute : putPosterRoute db fs id p now =
          (PutPosterResult.ok 200 (applyPosterPatch p now r),
           db.map (fun x => if x.id == id then applyPosterPatch p now x else x), fs) := by
        simp [putPosterRoute, getPosterById, hfind, hc, hupd]
      rw [hroute]
      exact ⟨rfl, rfl⟩
    · have hc : (truthy p.imageUrl && !(r.image_url == "")
          && !(p.imageUrl == some r.image_url)) = true := by
        simp [truthy, himg, hB, hA, hne]
      have hdel : deleteImageFile fs r.image_url = fs := by
        by_cases hmem : r.image_url ∈ fs.files <;>
          simp [deleteImageFile, hd1, hup, hmem, hfail]
      have hroute : putPosterRoute db fs id p now =
          (PutPosterResult.ok 200 (applyPosterPatch p now r),
           db.map (fun x => if x.id == id then applyPosterPatch p now x else x), fs) := by
        simp [putPosterRoute, getPosterById, hfind, hc, hupd, hdel]
      rw [hroute]
      exact ⟨rfl, rfl⟩

/-- Witness for `poster_update_reconciles_image` on a concrete poster,
patch and filesystem. -/
theorem poster_update_reconciles_image_witness :
    (("/uploads/posters/a.jpg" : String) ∉
      ((putPosterRoute
          [{ id := "poster-1", title := "t", category := "theme",
             image_url := "/uploads/posters/a.jpg", description := none,
             is_active := true, display_order := 0, created_at := 1, updated_at := 1 }]
          { files := ["/uploads/posters/a.jpg", "/uploads/posters/b.jpg"],
            unlinkFails := fun _ => false }
          "poster-1" { imageUrl := some "/uploads/posters/b.jpg" } 9).2.2).files) ∧
    (("/uploads/posters/b.jpg" : String) ∈
      ((putPosterRoute
          [{ id := "poster-1", title := "t", category := "theme",
             image_url := "/uploads/posters/a.jpg", description := none,
             is_active := true, display_order := 0, created_at := 1, updated_at := 1 }]
          { files := ["/uploads/posters/a.jpg", "/uploads/posters/b.jpg"],
            unlinkFails := fun _ => false }
          "poster-1" { imageUrl := some "/uploads/posters/b.jpg" } 9).2.2).files) ∧
    ((putPosterRoute
        [{ id := "poster-1", title := "t", category := "theme",
           image_url := "/uploads/posters/a.jpg", description := none,
           is_active := true, display_order := 0, created_at := 1, updated_at := 1 }]
        { files := ["/uploads/posters/a.jpg"], unlinkFails := fun _ => false }
        "poster-1" { imageUrl := some "/uploads/posters/a.jpg" } 9).2.2 =
      { files := ["/uploads/posters/a.jpg"], unlinkFails := fun _ => false }) := by
  have h1 := poster_update_reconciles_image
    [{ id := "poster-1", title := "t", category := "theme",
       image_url := "/uploads/posters/a.jpg", description := none,
       is_active := true, display_order := 0, created_at := 1, updated_at := 1 }]
    { files := ["/uploads/posters/a.jpg", "/uploads/posters/b.jpg"],
      unlinkFails := fun _ => false }
    "poster-1" { imageUrl := some "/uploads/posters/b.jpg" }
    { id := "poster-1", title := "t", category := "theme",
      image_url := "/uploads/posters/a.jpg", description := none,
      is_active := true, display_order := 0, created_at := 1, updated_at := 1 }
    "/uploads/posters/b.jpg" 9
    (by decide) (by decide) (by decide) (by decide) (by decide)
  have h2 := poster_update_reconciles_image
    [{ id := "poster-1", title := "t", category := "theme",
       image_url := "/uploads/posters/a.jpg", description := none,
       is_active := true, display_order := 0, created_at := 1, updated_at := 1 }]
    { files := ["/uploads/posters/a.jpg"], unlinkFails := fun _ => false }
    "poster-1" { imageUrl := some "/uploads/posters/a.jpg" }
    { id := "poster-1", title := "t", category := "theme",
      image_url := "/uploads/posters/a.jpg", description := none,
      is_active := true, display_order := 0, created_at := 1, updated_at := 1 }
    "/uploads/posters/a.jpg" 9
    (by decide) (by decide) (by decide) (by decide) (by decide)
  have h1a := h1.1 (by decide) (by decide)
  exact ⟨h1a.2.1, h1a.2.2.1 (by decide), (h2.2.1 (by decide)).1⟩

/-- C8 evaluation at the failing input: the users router mounts only
`authMiddleware` (users.js line 247) with no role check, so a caller
whose valid token carries role `admin` (not `super_admin`) reaches the
`POST /users` handler and gets 201 Created — not the 403 Forbidden the
spec (and the repository's own documentation) require. -/
theorem post_users_no_role_check :
    (runProtected
        (fun s => if s == "tok"
          then Jwt.signed { id := "user-a", email := "a@x.com", role := "admin" } "k" 0
          else Jwt.malformed s)
        "k" 10 (some "Bearer tok")
        (fun _ => postUsersRoute
          [{ id := "user-a", email := "a@x.com",
             password_hash := { pw := "pw123456", salt := 0 }, name := none,
             role := "admin", must_change_password := false, is_active := true,
             last_login := none, created_at := 0, updated_at := 0 }]
          (some "new@x.com") (some "secret1") none none "user-new" 1 10) =
      RouteOutcome.handled (postUsersRoute
        [{ id := "user-a", email := "a@x.com",
           password_hash := { pw := "pw123456", salt := 0 }, name := none,
           role := "admin", must_change_password := false, is_active := true,
           last_login := none, created_at := 0, updated_at := 0 }]
        (some "new@x.com") (some "secret1") none none "user-new" 1 10)) ∧
    ((postUsersRoute
        [{ id := "user-a", email := "a@x.com",
           password_hash := { pw := "pw123456", salt := 0 }, name := none,
           role := "admin", must_change_password := false, is_active := true,
           last_login := none, created_at := 0, updated_at := 0 }]
        (some "new@x.com") (some "secret1") none none "user-new" 1 10).1 =
      PostUsersResult.created 201 userCreatedMsg
        (some { id := "user-new", email := "new@x.com", name := none, role := "admin",
                mustChangePassword := true, isActive := true, lastLogin := none,
                createdAt := 10, updatedAt := 10 })) ∧
    (201 : Nat) ≠ 403 := by
  refine ⟨by decide, by decide, by decide⟩

/-- C9: a self-targeted `PUT /users/{id}` whose body sets `role` or
`isActive` is rejected with 400 before any store access, and a
self-targeted `DELETE /users/{id}` likewise — both independently of the
caller's role (the handlers never read it), and both leave the user
table unchanged. -/
theorem self_target_rejected (store : List UserRow) (callerId : String)
    (p : UserPatch) (now : Nat) :
    p.role.isSome = true ∨ p.isActive.isSome = true →
    (putUserRoute store callerId callerId p now =
      (PutUserResult.badRequest 400 selfChangeMsg, store)) ∧
    (deleteUserRoute store callerId callerId now =
      (DeleteUserResult.badRequest 400 selfDeleteMsg, store)) := by
  intro h
  constructor
  · simp only [putUserRoute]
    rcases h with h | h
    · rcases Option.isSome_iff_exists.1 h with ⟨v, hv⟩
      simp [hv]
    · rcases Option.isSome_iff_exists.1 h with ⟨v, hv⟩
      simp [hv]
  · simp [deleteUserRoute]

/-- Witness for `self_target_rejected` at a concrete store and patch. -/
theorem self_target_rejected_witness :
    (putUserRoute
        [{ id := "user-1", email := "a@x.com", password_hash := { pw := "pw", salt := 0 },
           name := none, role := "super_admin", must_change_password := false,
           is_active := true, last_login := none, created_at := 0, updated_at := 0 }]
        "user-1" "user-1" { role := some "admin" } 9 =
      (PutUserResult.badRequest 400 selfChangeMsg,
       [{ id := "user-1", email := "a@x.com", password_hash := { pw := "pw", salt := 0 },
          name := none, role := "super_admin", must_change_password := false,
          is_active := true, last_login := none, created_at := 0, updated_at := 0 }])) ∧
    (deleteUserRoute
        [{ id := "user-1", email := "a@x.com", password_hash := { pw := "pw", salt := 0 },
           name := none, role := "super_admin", must_change_password := false,
           is_active := true, last_login := none, created_at := 0, updated_at := 0 }]
        "user-1" "user-1" 9 =
      (DeleteUserResult.badRequest 400 selfDeleteMsg,
       [{ id := "user-1", email := "a@x.com", password_hash := { pw := "pw", salt := 0 },
          name := none, role := "super_admin", must_change_password := false,
          is_active := true, last_login := none, created_at := 0, updated_at := 0 }])) :=
  self_target_rejected
    [{ id := "user-1", email := "a@x.com", password_hash := { pw := "pw", salt := 0 },
       name := none, role := "super_admin", must_change_password := false,
       is_active := true, last_login := none, created_at := 0, updated_at := 0 }]
    "user-1" { role := some "admin" } 9 (Or.inl (by decide))

/-- C10: `updateUserPassword` unconditionally writes
`must_change_password = FALSE` together with the new hash; hence after
the admin reset-password route (which calls it and then an empty
`updateUser` patch that cannot touch the flag) the target user's flag is
false — although the route's success message announces a forced change
on next login. -/
theorem reset_password_clears_flag (store : List UserRow) (targetId pw : String)
    (hash : BcryptHash) (salt now : Nat) :
    (∀ r ∈ (updateUserPassword store targetId hash now).2, r.id = targetId →
      r.must_change_password = false) ∧
    (6 ≤ pw.length →
      ∀ u, getUserById store targetId = some u →
      ((resetPasswordRoute store targetId (some pw) salt now).1 =
        ResetPasswordResult.ok 200 passwordResetMsg) ∧
      (∀ r ∈ (resetPasswordRoute store targetId (some pw) salt now).2, r.id = targetId →
        r.must_change_password = false)) := by
  constructor
  · intro r hr hid
    simp only [updateUserPassword] at hr
    obtain ⟨v, hv, hfv⟩ := mem_map_elim hr
    by_cases h : v.id = targetId
    · rw [← hfv]
      simp [h]
    · have hrv : r = v := by
        rw [← hfv]
        simp [h]
      rw [hrv] at hid
      exact absurd hid h
  · intro hlen u hu
    have hpw0 : (pw == "") = false := by
      rcases eq_or_ne pw "" with h | h
      · subst h
        exact absurd hlen (by decide)
      · simp [h]
    have hnlt : ¬(pw.length < 6) := by omega
    simp only [getUserById, Option.map_eq_some'] at hu
    obtain ⟨y, hy, hyu⟩ := hu
    have hyid : y.id = targetId := by
      simpa using List.find?_some hy
    have hid : u.id = targetId := by
      rw [← hyu]
      simpa [toUserView] using hyid
    have hu2 : getUserById store targetId = some u := by
      simp [getUserById, hy, hyu]
    have hroute : resetPasswordRoute store targetId (some pw) salt now =
        (ResetPasswordResult.ok 200 passwordResetMsg,
         (updateUser (updateUserPassword store u.id (hashPassword pw salt) now).2
           u.id {} now).2) := by
      simp [resetPasswordRoute, hpw0, hnlt, hu2]
    rw [hroute]
    refine ⟨rfl, ?_⟩
    rw [hid]
    have hstore2 : (updateUserPassword store targetId (hashPassword pw salt) now).2 =
        store.map (fun r => if r.id == targetId then { r with password_hash := hashPassword pw salt, must_change_password := false, updated_at := now } else r) := by
      simp [updateUserPassword]
    have hpf1 : ∀ z : UserRow,
        (((fun r : UserRow => if r.id == targetId then { r with password_hash := hashPassword pw salt, must_change_password := false, updated_at := now } else r) z).id == targetId)
          = (z.id == targetId) := by
      intro z
      by_cases h : z.id = targetId <;> simp [h]
    have hfind2 : (store.map (fun r => if r.id == targetId then { r with password_hash := hashPassword pw salt, must_change_password := false, updated_at := now } else r)).find?
        (fun r => r.id == targetId) = some ((fun r : UserRow => if r.id == targetId then { r with password_hash := hashPassword pw salt, must_change_password := false, updated_at := now } else r) y) := by
      rw [find_map_congr (fun r : UserRow => r.id == targetId)
        (fun r => if r.id == targetId then { r with password_hash := hashPassword pw salt, must_change_password := false, updated_at := now } else r) hpf1 store, hy]
      rfl
    have hupd := updateUser_found
      (store.map (fun r => if r.id == targetId then { r with password_hash := hashPassword pw salt, must_change_password := false, updated_at := now } else r))
      targetId {} now _ hfind2
    intro r hr hid2
    simp only [hstore2, hupd] at hr
    obtain ⟨w, hw, hfw⟩ := mem_map_elim hr
    obtain ⟨v, hv, hfv⟩ := mem_map_elim hw
    have hflag : r.must_change_password = w.must_change_password ∧ r.id = w.id := by
      rw [← hfw]
      by_cases h : w.id = targetId <;> simp [applyUserPatch, h]
    by_cases h : v.id = targetId
    · have hwflag : w.must_change_password = false := by
        rw [← hfv]
        simp [h]
      rw [hflag.1, hwflag]
    · have hwv : w = v := by
        rw [← hfv]
        simp [h]
      rw [hflag.2, hwv] at hid2
      exact absurd hid2 h

/-- Witness for `reset_password_clears_flag` on a concrete one-user
store: the flag was true before the reset and is false afterwards while
the route still reports the forced-change message. -/
theorem reset_password_clears_flag_witness :
    ((resetPasswordRoute
        [{ id := "user-1", email := "a@x.com", password_hash := { pw := "old123", salt := 0 },
           name := none, role := "admin", must_change_password := true, is_active := true,
           last_login := none, created_at := 0, updated_at := 0 }]
        "user-1" (some "fresh1") 1 9).1 =
      ResetPasswordResult.ok 200 passwordResetMsg) ∧
    (∀ r ∈ (resetPasswordRoute
        [{ id := "user-1", email := "a@x.com", password_hash := { pw := "old123", salt := 0 },
           name := none, role := "admin", must_change_password := true, is_active := true,
           last_login := none, created_at := 0, updated_at := 0 }]
        "user-1" (some "fresh1") 1 9).2, r.id = "user-1" →
      r.must_change_password = false) := by
  have h := (reset_password_clears_flag
    [{ id := "user-1", email := "a@x.com", password_hash := { pw := "old123", salt := 0 },
       name := none, role := "admin", must_change_password := true, is_active := true,
       last_login := none, created_at := 0, updated_at := 0 }]
    "user-1" "fresh1" { pw := "x", salt := 0 } 1 9).2 (by decide)
    { id := "user-1", email := "a@x.com", name := none, role := "admin",
      mustChangePassword := true, isActive := true, lastLogin := none,
      createdAt := 0, updatedAt := 0 }
    (by decide)
  exact ⟨h.1, h.2⟩
